import Mathlib

/-!
Shallow embedding of the JPF4826 fan-controller driver (crate `jpf4826_driver`)
and proofs of the specification's claims about it.

Machine integers are embedded as follows:
* `u16` values are `Nat` (kept `< 65536` by construction at every producer);
* `i16` values are `Int`, with every Rust `i16` arithmetic operation wrapped by
  `wrapI16` to model two's-complement wrap-around on overflow (release-mode
  Rust semantics);
* casts `as u16`, `as i16`, `as u8` are the explicit functions below.
-/

/-- Two's-complement wrap-around of an `i16` arithmetic result (Rust release-mode
overflow semantics): maps any integer into `[-32768, 32767]` preserving value mod 2^16. -/
def wrapI16 (x : Int) : Int := (x + 32768) % 65536 - 32768

/-- Rust cast `x as u16` applied to an `i16` value. -/
def i16AsU16 (x : Int) : Nat := (x % 65536).toNat

/-- Rust cast `r as i16` applied to a `u16` value. -/
def u16AsI16 (r : Nat) : Int :=
  if r % 65536 < 32768 then ((r % 65536 : Nat) : Int) else ((r % 65536 : Nat) : Int) - 65536

/-- Rust cast `r as u8` applied to a `u16` value. -/
def u16AsU8 (r : Nat) : Nat := r % 256

/-! ### `src/jpf4826_driver/src/types.rs` -/

/-- Fan operational status from controller diagnostics (types.rs `FanStatus`). -/
inductive FanStatus
  | Normal
  | Fault
deriving DecidableEq, Repr

/-- Temperature unit (types.rs `TemperatureUnit`). -/
inductive TemperatureUnit
  | Celsius
  | Fahrenheit
deriving DecidableEq, Repr

/-- PWM frequency for fan control signal (types.rs `PwmFrequency`). -/
inductive PwmFrequency
  | Hz500
  | Hz1000
  | Hz2000
  | Hz5000
  | Hz10000
  | Hz25000
deriving DecidableEq, Repr

/-- types.rs `PwmFrequency::from_register_value`. -/
def PwmFrequency.from_register_value (value : Nat) : Option PwmFrequency :=
  match value with
  | 0x0000 => some PwmFrequency.Hz500
  | 0x0001 => some PwmFrequency.Hz1000
  | 0x0002 => some PwmFrequency.Hz2000
  | 0x0003 => some PwmFrequency.Hz5000
  | 0x0004 => some PwmFrequency.Hz10000
  | 0x0005 => some PwmFrequency.Hz25000
  | _ => none

/-- types.rs `PwmFrequency::to_register_value`. -/
def PwmFrequency.to_register_value : PwmFrequency → Nat
  | PwmFrequency.Hz500 => 0x0000
  | PwmFrequency.Hz1000 => 0x0001
  | PwmFrequency.Hz2000 => 0x0002
  | PwmFrequency.Hz5000 => 0x0003
  | PwmFrequency.Hz10000 => 0x0004
  | PwmFrequency.Hz25000 => 0x0005

/-- Modelled from the spec: the `OperatingMode` enumeration {Temperature, Manual}
(used by client.rs `status` and `set_mode` but its declaration is not among the
provided source files; spec section 3 fixes the bijection Temperature↔0xFFFF,
Manual↔0x0000 sentinel). -/
inductive OperatingMode
  | Temperature
  | Manual
deriving DecidableEq, Repr

/-- Temperature reading with associated unit (types.rs `Temperature`). -/
structure Temperature where
  value : Int
  unit : TemperatureUnit
deriving DecidableEq, Repr

/-- Individual fan status and speed information (types.rs `FanInfo`). -/
structure FanInfo where
  index : Nat
  status : FanStatus
  rpm : Nat
deriving DecidableEq, Repr

/-- Complete controller status snapshot (types.rs `ControllerStatus`; the `mode`
field is the one client.rs `status` fills with an `OperatingMode`, modelled from
the spec since the field's declaration is not among the provided source files). -/
structure ControllerStatus where
  mode : OperatingMode
  eco_mode : Bool
  modbus_address : Nat
  pwm_frequency : PwmFrequency
  fan_count : Nat
  temperature_current : Temperature
  temperature_low_threshold : Temperature
  temperature_high_threshold : Temperature
  fans : List FanInfo
deriving DecidableEq, Repr

/-! ### `src/jpf4826_driver/src/conversions.rs` -/

/-- conversions.rs `TEMPERATURE_OFFSET`: offset added to Celsius temperatures in
Modbus registers. -/
def TEMPERATURE_OFFSET : Int := 40

/-- conversions.rs `celsius_to_register`:
`(celsius + TEMPERATURE_OFFSET) as u16` in `i16` arithmetic. -/
def celsius_to_register (celsius : Int) : Nat :=
  i16AsU16 (wrapI16 (celsius + TEMPERATURE_OFFSET))

/-- conversions.rs `register_to_celsius`:
`register as i16 - TEMPERATURE_OFFSET` in `i16` arithmetic. -/
def register_to_celsius (register : Nat) : Int :=
  wrapI16 (u16AsI16 register - TEMPERATURE_OFFSET)

/-- conversions.rs `celsius_to_fahrenheit`: `(celsius * 9 / 5) + 32` in `i16`
arithmetic; Rust `/` on integers truncates toward zero, i.e. `Int.tdiv`.
(The division itself cannot overflow since the divisor is the literal 5.) -/
def celsius_to_fahrenheit (celsius : Int) : Int :=
  wrapI16 (Int.tdiv (wrapI16 (celsius * 9)) 5 + 32)

/-- conversions.rs `parse_fan_status_bitmap`: `[bool; 4]` as a four-element list. -/
def parse_fan_status_bitmap (bitmap : Nat) : List Bool :=
  [ bitmap &&& 0x01 != 0
  , bitmap &&& 0x02 != 0
  , bitmap &&& 0x04 != 0
  , bitmap &&& 0x08 != 0 ]

/-- conversions.rs `parse_fan_fault_bitmap`: bit set ⇒ `Normal`, clear ⇒ `Fault`
(inverted logic), as a four-element list. -/
def parse_fan_fault_bitmap (bitmap : Nat) : List FanStatus :=
  [ if bitmap &&& 0x01 != 0 then FanStatus.Normal else FanStatus.Fault
  , if bitmap &&& 0x02 != 0 then FanStatus.Normal else FanStatus.Fault
  , if bitmap &&& 0x04 != 0 then FanStatus.Normal else FanStatus.Fault
  , if bitmap &&& 0x08 != 0 then FanStatus.Normal else FanStatus.Fault ]

/-- conversions.rs `parse_combined_temperature`: high byte is the start (low)
threshold, low byte the full-speed (high) threshold, each offset-40 encoded. -/
def parse_combined_temperature (combined : Nat) : Int × Int :=
  let high_byte := (combined >>> 8) &&& 0xFF
  let low_byte := combined &&& 0xFF
  let start_temp := register_to_celsius high_byte
  let full_temp := register_to_celsius low_byte
  (start_temp, full_temp)

/-- conversions.rs `encode_combined_temperature`: each register value is cast
`as u8` (truncated to 8 bits) before packing start into the high byte and full
into the low byte. -/
def encode_combined_temperature (start_celsius full_celsius : Int) : Nat :=
  let start_register := u16AsU8 (celsius_to_register start_celsius)
  let full_register := u16AsU8 (celsius_to_register full_celsius)
  (start_register <<< 8) ||| full_register

/-! ### `src/jpf4826_driver/src/error.rs` -/

/-- error.rs `ErrorKind` (the `Jpf4826Error` payload; the backtrace carried by
the Rust struct is diagnostic only and not modelled). -/
inductive Jpf4826Error
  | modbus (msg : String)
  | serial (msg : String)
  | invalidParameter (msg : String)
  | invalidThresholds (low high : Int)
  | invalidFanIndex (index : Nat)
  | invalidAddress (addr : Nat)
  | invalidSpeed (speed : Nat)
deriving DecidableEq, Repr

/-! ### `src/jpf4826_driver/src/registers.rs` -/

/-- registers.rs `RegisterAddress`. -/
inductive RegisterAddress
  | CurrentTemperature
  | FanStatus
  | ModbusAddress
  | ManualSpeedControl
  | CombinedTemperature
  | WorkMode
  | FanQuantity
  | Fan1Speed
  | Fan2Speed
  | Fan3Speed
  | Fan4Speed
  | PwmFrequency
  | StartTemperature
  | FullSpeedTemperature
  | FanFaultCode
  | ResetController
deriving DecidableEq, Repr

/-- registers.rs `RegisterAddress::addr` (the `#[repr(u16)]` discriminants). -/
def RegisterAddress.addr : RegisterAddress → Nat
  | RegisterAddress.CurrentTemperature => 0x0000
  | RegisterAddress.FanStatus => 0x0001
  | RegisterAddress.ModbusAddress => 0x0002
  | RegisterAddress.ManualSpeedControl => 0x0003
  | RegisterAddress.CombinedTemperature => 0x0004
  | RegisterAddress.WorkMode => 0x0005
  | RegisterAddress.FanQuantity => 0x0006
  | RegisterAddress.Fan1Speed => 0x0007
  | RegisterAddress.Fan2Speed => 0x0008
  | RegisterAddress.Fan3Speed => 0x0009
  | RegisterAddress.Fan4Speed => 0x000A
  | RegisterAddress.PwmFrequency => 0x000B
  | RegisterAddress.StartTemperature => 0x000C
  | RegisterAddress.FullSpeedTemperature => 0x000D
  | RegisterAddress.FanFaultCode => 0x000E
  | RegisterAddress.ResetController => 0x0020

/-! ### `src/jpf4826_driver/src/client.rs`

The client is embedded over the mock backend (client.rs `MockBackend`): the
device register table is a `HashMap<u16, u16>` read with `.unwrap_or(0)`,
modelled as a total function `Nat → Nat` (absent keys read as 0), plus the
locally cached slave address.  Mock reads and writes are infallible, so the
only `Err` outcomes of the embedded operations are the client-side validation
failures, exactly as in the source's mock path.  Fallible operations return
the `Except` outcome PAIRED with the post-state, so that "no register was
written" is visible in the result. -/

/-- Device register table plus cached bus address (client.rs `MockBackend`). -/
structure MockState where
  regs : Nat → Nat
  slaveAddr : Nat

/-- client.rs `MockBackend::read_registers`: values of `count` consecutive
registers starting at `start_addr`, in address order, absent keys read as 0. -/
def mockRead (s : MockState) (start_addr count : Nat) : List Nat :=
  (List.range count).map (fun i => s.regs (start_addr + i))

/-- client.rs `Jpf4826Client::write` on the mock backend: inserts the value at
the register address (always succeeds). -/
def mockWrite (s : MockState) (addr value : Nat) : MockState :=
  { s with regs := fun a => if a = addr then value else s.regs a }

/-- client.rs `Jpf4826Client::fan_status`: reads the fan status bitmap (ignored
beyond logging), the four speed registers 0x0007-0x000A, and the fault bitmap
0x000E, and assembles four `FanInfo` entries. -/
def Jpf4826Client.fan_status (s : MockState) : List FanInfo :=
  let _status_bitmap := (mockRead s (RegisterAddress.FanStatus).addr 1).getD 0 0
  let speeds := mockRead s (RegisterAddress.Fan1Speed).addr 4
  let fault_bitmap := (mockRead s (RegisterAddress.FanFaultCode).addr 1).getD 0 0
  let fault_statuses := parse_fan_fault_bitmap fault_bitmap
  (List.range 4).map (fun i =>
    { index := i + 1
      status := fault_statuses.getD i FanStatus.Fault
      rpm := speeds.getD i 0 })

/-- client.rs `Jpf4826Client::status`: one 15-register read from 0x0000, field
extraction, then a nested `fan_status`.  On the mock backend reads are
infallible, so the operation is total. -/
def Jpf4826Client.status (s : MockState) : ControllerStatus :=
  let values := mockRead s (RegisterAddress.CurrentTemperature).addr 15
  let current_temp := register_to_celsius (values.getD 0 0)
  let modbus_address := u16AsU8 (values.getD 2 0)
  let manual_speed_raw := values.getD 3 0
  let work_mode_raw := values.getD 5 0
  let fan_count := u16AsU8 (values.getD 6 0)
  let pwm_freq_raw := values.getD 11 0
  let start_temp := register_to_celsius (values.getD 12 0)
  let full_temp := register_to_celsius (values.getD 13 0)
  let mode := if manual_speed_raw = 0xFFFF then OperatingMode.Temperature
              else OperatingMode.Manual
  let eco_mode := work_mode_raw == 1
  let pwm_frequency :=
    (PwmFrequency.from_register_value pwm_freq_raw).getD PwmFrequency.Hz25000
  let fans := Jpf4826Client.fan_status s
  { mode := mode
    eco_mode := eco_mode
    modbus_address := modbus_address
    pwm_frequency := pwm_frequency
    fan_count := fan_count
    temperature_current := { value := current_temp, unit := TemperatureUnit.Celsius }
    temperature_low_threshold := { value := start_temp, unit := TemperatureUnit.Celsius }
    temperature_high_threshold := { value := full_temp, unit := TemperatureUnit.Celsius }
    fans := fans }

/-- client.rs `Jpf4826Client::set_fan_speed` (mock backend): validate 0-100,
then write register 0x0003. -/
def Jpf4826Client.set_fan_speed (s : MockState) (speed_percent : Nat) :
    Except Jpf4826Error Unit × MockState :=
  if speed_percent > 100 then
    (Except.error (Jpf4826Error.invalidSpeed speed_percent), s)
  else
    (Except.ok (), mockWrite s (RegisterAddress.ManualSpeedControl).addr speed_percent)

/-- client.rs `Jpf4826Client::set_fan_count` (mock backend): validate 0-4,
then write register 0x0006. -/
def Jpf4826Client.set_fan_count (s : MockState) (count : Nat) :
    Except Jpf4826Error Unit × MockState :=
  if count > 4 then
    (Except.error (Jpf4826Error.invalidParameter
      ("Fan count " ++ toString count ++ " out of range (0-4)")), s)
  else
    (Except.ok (), mockWrite s (RegisterAddress.FanQuantity).addr count)

/-- client.rs `Jpf4826Client::set_addr` (mock backend): validate 1-254, write
register 0x0002, and only then update the cached slave address. -/
def Jpf4826Client.set_addr (s : MockState) (addr : Nat) :
    Except Jpf4826Error Unit × MockState :=
  if ¬(1 ≤ addr ∧ addr ≤ 254) then
    (Except.error (Jpf4826Error.invalidAddress addr), s)
  else
    let s1 := mockWrite s (RegisterAddress.ModbusAddress).addr addr
    (Except.ok (), { s1 with slaveAddr := addr })

/-- client.rs `Jpf4826Client::set_addr` control flow over the real-Modbus
backend: the transport write (modbus.rs `ModbusRtuClient::write_single_register`,
whose body is serial I/O) is abstracted as the argument `w`; the returned `Nat`
is the session's cached slave address after the call (modbus.rs
`ModbusRtuClient::set_slave_addr` simply stores the value).  The `?` on the
write means an error returns before the cache update. -/
def set_addr_modbus (w : Nat → Nat → Except Jpf4826Error Unit)
    (cache : Nat) (addr : Nat) : Except Jpf4826Error Unit × Nat :=
  if ¬(1 ≤ addr ∧ addr ≤ 254) then
    (Except.error (Jpf4826Error.invalidAddress addr), cache)
  else
    match w (RegisterAddress.ModbusAddress).addr addr with
    | Except.error e => (Except.error e, cache)
    | Except.ok () => (Except.ok (), addr)

/-- client.rs `Jpf4826Client::set_temperature_threshold` (mock backend):
validate `high > low`, then each range, then write 0x000C and 0x000D. -/
def Jpf4826Client.set_temperature_threshold (s : MockState) (low high : Int) :
    Except Jpf4826Error Unit × MockState :=
  if high ≤ low then
    (Except.error (Jpf4826Error.invalidThresholds low high), s)
  else if ¬(-20 ≤ low ∧ low ≤ 120) then
    (Except.error (Jpf4826Error.invalidParameter
      ("Low temperature " ++ toString low ++ "°C out of range (-20 to 120)")), s)
  else if ¬(-20 ≤ high ∧ high ≤ 120) then
    (Except.error (Jpf4826Error.invalidParameter
      ("High temperature " ++ toString high ++ "°C out of range (-20 to 120)")), s)
  else
    let low_value := celsius_to_register low
    let high_value := celsius_to_register high
    let s1 := mockWrite s (RegisterAddress.StartTemperature).addr low_value
    let s2 := mockWrite s1 (RegisterAddress.FullSpeedTemperature).addr high_value
    (Except.ok (), s2)

/-- client.rs `Jpf4826Client::set_start_temperature` (mock backend): validate
range, read the stored full-speed threshold 0x000D, validate `low <` it, then
write 0x000C. -/
def Jpf4826Client.set_start_temperature (s : MockState) (low : Int) :
    Except Jpf4826Error Unit × MockState :=
  if ¬(-20 ≤ low ∧ low ≤ 120) then
    (Except.error (Jpf4826Error.invalidParameter
      ("Start temperature " ++ toString low ++ "°C out of range (-20 to 120)")), s)
  else
    let values := mockRead s (RegisterAddress.FullSpeedTemperature).addr 1
    let current_high := register_to_celsius (values.getD 0 0)
    if low ≥ current_high then
      (Except.error (Jpf4826Error.invalidThresholds low current_high), s)
    else
      let low_value := celsius_to_register low
      (Except.ok (), mockWrite s (RegisterAddress.StartTemperature).addr low_value)

/-- client.rs `Jpf4826Client::set_full_speed_temperature` (mock backend):
validate range, read the stored start threshold 0x000C, validate `high >` it,
then write 0x000D. -/
def Jpf4826Client.set_full_speed_temperature (s : MockState) (high : Int) :
    Except Jpf4826Error Unit × MockState :=
  if ¬(-20 ≤ high ∧ high ≤ 120) then
    (Except.error (Jpf4826Error.invalidParameter
      ("Full speed temperature " ++ toString high ++ "°C out of range (-20 to 120)")), s)
  else
    let values := mockRead s (RegisterAddress.StartTemperature).addr 1
    let current_low := register_to_celsius (values.getD 0 0)
    if high ≤ current_low then
      (Except.error (Jpf4826Error.invalidThresholds current_low high), s)
    else
      let high_value := celsius_to_register high
      (Except.ok (), mockWrite s (RegisterAddress.FullSpeedTemperature).addr high_value)

/-- The stored low (start) threshold is strictly below the stored high
(full-speed) threshold, both decoded from the device registers (spec section 3
invariant). -/
def thresholdsOrdered (s : MockState) : Prop :=
  register_to_celsius (s.regs (RegisterAddress.StartTemperature).addr) <
    register_to_celsius (s.regs (RegisterAddress.FullSpeedTemperature).addr)

/-- A concrete device register table: current temperature register 71 (31°C),
fan-running bitmap 0x000F, fault bitmap 0x000F, all four fan speeds 1400 RPM,
PWM frequency register 6 (out of range), thresholds 70/90 (30°C/50°C). -/
def sampleRegs : Nat → Nat := fun n =>
  if n = 0x0000 then 71
  else if n = 0x0001 then 0x000F
  else if n = 0x0007 then 1400
  else if n = 0x0008 then 1400
  else if n = 0x0009 then 1400
  else if n = 0x000A then 1400
  else if n = 0x000B then 6
  else if n = 0x000C then 70
  else if n = 0x000D then 90
  else if n = 0x000E then 0x000F
  else 0

/-- A concrete mock device state built on `sampleRegs`, bus address 1. -/
def sampleState : MockState := { regs := sampleRegs, slaveAddr := 1 }

/-! ### Helper lemmas -/

/-- Packing a low byte next to a shifted high byte is plain arithmetic. -/
theorem shiftLeft_or_eq (a b : Nat) (h : b < 256) : a <<< 8 ||| b = a * 256 + b := by
  rw [Nat.shiftLeft_eq, Nat.mul_comm a (2 ^ 8), ← Nat.mul_add_lt_is_or h]

/-- Masking with `0xFF` is reduction modulo 256. -/
theorem and_255_eq_mod (x : Nat) : x &&& 0xFF = x % 256 := by
  have h := Nat.and_pow_two_sub_one_eq_mod x 8
  norm_num at h
  exact h

/-- Shifting right by 8 is division by 256. -/
theorem shiftRight_8_eq_div (x : Nat) : x >>> 8 = x / 256 := by
  rw [Nat.shiftRight_eq_div_pow]

/-- High byte recovered from a packed word. -/
theorem unpack_high (a b : Nat) (ha : a < 256) (hb : b < 256) :
    ((a <<< 8 ||| b) >>> 8) &&& 0xFF = a := by
  rw [shiftLeft_or_eq a b hb, shiftRight_8_eq_div, and_255_eq_mod]
  omega

/-- Low byte recovered from a packed word. -/
theorem unpack_low (a b : Nat) (hb : b < 256) : (a <<< 8 ||| b) &&& 0xFF = b := by
  rw [shiftLeft_or_eq a b hb, and_255_eq_mod]
  omega

/-- On the valid Celsius domain the register encoding is just the +40 shift. -/
theorem celsius_to_register_eq (c : Int) (h1 : -20 ≤ c) (h2 : c ≤ 120) :
    celsius_to_register c = (c + 40).toNat := by
  simp only [celsius_to_register, i16AsU16, wrapI16, TEMPERATURE_OFFSET]
  omega

/-- Celsius → register → Celsius is the identity on the valid domain. -/
theorem register_roundtrip (c : Int) (h1 : -20 ≤ c) (h2 : c ≤ 120) :
    register_to_celsius (celsius_to_register c) = c := by
  simp only [register_to_celsius, celsius_to_register, u16AsI16, i16AsU16, wrapI16,
    TEMPERATURE_OFFSET]
  split_ifs <;> omega

/-- Testing a masked bit agrees with `Nat.testBit`. -/
theorem and_pow_bne (b i : Nat) : (b &&& 2 ^ i != 0) = b.testBit i := by
  rw [Nat.and_two_pow]
  cases h : b.testBit i <;> simp

/-! ### Claims -/

/-- C1: for every Celsius value c in -20..=120,
`register_to_celsius (celsius_to_register c) = c`; and for every pair (lo, hi)
each in -20..=120,
`parse_combined_temperature (encode_combined_temperature lo hi) = (lo, hi)`. -/
theorem claim_C1_conversion_roundtrip (c lo hi : Int) :
    (-20 ≤ c → c ≤ 120 → register_to_celsius (celsius_to_register c) = c) ∧
    (-20 ≤ lo → lo ≤ 120 → -20 ≤ hi → hi ≤ 120 →
      parse_combined_temperature (encode_combined_temperature lo hi) = (lo, hi)) := by
  constructor
  · intro h1 h2
    exact register_roundtrip c h1 h2
  · intro hl1 hl2 hh1 hh2
    have ha : celsius_to_register lo = (lo + 40).toNat := celsius_to_register_eq lo hl1 hl2
    have hb : celsius_to_register hi = (hi + 40).toNat := celsius_to_register_eq hi hh1 hh2
    have ha' : (lo + 40).toNat < 256 := by omega
    have hb' : (hi + 40).toNat < 256 := by omega
    have hlo : register_to_celsius ((lo + 40).toNat) = lo := by
      rw [← ha]; exact register_roundtrip lo hl1 hl2
    have hhi : register_to_celsius ((hi + 40).toNat) = hi := by
      rw [← hb]; exact register_roundtrip hi hh1 hh2
    simp only [parse_combined_temperature, encode_combined_temperature, u16AsU8, ha, hb,
      Nat.mod_eq_of_lt ha', Nat.mod_eq_of_lt hb']
    rw [unpack_high _ _ ha' hb', unpack_low _ _ hb', hlo, hhi]

/-- Witness for C1 at c = 31, lo = 30, hi = 50. -/
theorem claim_C1_conversion_roundtrip_witness :
    register_to_celsius (celsius_to_register 31) = 31 ∧
    parse_combined_temperature (encode_combined_temperature 30 50) = (30, 50) :=
  ⟨(claim_C1_conversion_roundtrip 31 30 50).1 (by decide) (by decide),
   (claim_C1_conversion_roundtrip 31 30 50).2 (by decide) (by decide) (by decide) (by decide)⟩

set_option maxRecDepth 8000

/-- C7: on the valid Celsius domain, `celsius_to_fahrenheit c` is `c*9/5 + 32`
with truncating (toward-zero) integer division, and in particular
`celsius_to_fahrenheit 31 = 87` (truncation, not rounding). -/
theorem claim_C7_fahrenheit_truncating :
    (∀ c : Int, -20 ≤ c → c ≤ 120 →
      celsius_to_fahrenheit c = Int.tdiv (c * 9) 5 + 32) ∧
    celsius_to_fahrenheit 31 = 87 := by
  constructor
  · intro c h1 h2
    have key : ∀ n : Nat, n < 141 →
        celsius_to_fahrenheit ((n : Int) - 20) =
          Int.tdiv (((n : Int) - 20) * 9) 5 + 32 := by decide
    have hn : ((c + 20).toNat : Int) - 20 = c := by omega
    have h := key (c + 20).toNat (by omega)
    rwa [hn] at h
  · decide

/-- Witness for C7 at c = 31. -/
theorem claim_C7_fahrenheit_truncating_witness :
    celsius_to_fahrenheit 31 = Int.tdiv (31 * 9) 5 + 32 :=
  claim_C7_fahrenheit_truncating.1 31 (by decide) (by decide)

/-- C8: for every 16-bit bitmap b, `parse_fan_status_bitmap b` lists exactly the
low four bits of b (bit i set ⇔ fan i+1 running), `parse_fan_fault_bitmap b`
lists `Normal` where the bit is set and `Fault` where it is clear (inverted
polarity), and the two literal vectors hold. -/
theorem claim_C8_bitmap_parsing (b : Nat) (hb : b < 65536) :
    parse_fan_status_bitmap b = [b.testBit 0, b.testBit 1, b.testBit 2, b.testBit 3] ∧
    parse_fan_fault_bitmap b =
      [ if b.testBit 0 then FanStatus.Normal else FanStatus.Fault
      , if b.testBit 1 then FanStatus.Normal else FanStatus.Fault
      , if b.testBit 2 then FanStatus.Normal else FanStatus.Fault
      , if b.testBit 3 then FanStatus.Normal else FanStatus.Fault ] ∧
    parse_fan_fault_bitmap 0x00FB =
      [FanStatus.Normal, FanStatus.Normal, FanStatus.Fault, FanStatus.Normal] ∧
    parse_fan_status_bitmap 0x0001 = [true, false, false, false] := by
  have h0 : (b &&& 1 != 0) = b.testBit 0 := and_pow_bne b 0
  have h1 : (b &&& 2 != 0) = b.testBit 1 := and_pow_bne b 1
  have h2 : (b &&& 4 != 0) = b.testBit 2 := and_pow_bne b 2
  have h3 : (b &&& 8 != 0) = b.testBit 3 := and_pow_bne b 3
  refine ⟨?_, ?_, by decide, by decide⟩
  · simp only [parse_fan_status_bitmap, h0, h1, h2, h3]
  · simp only [parse_fan_fault_bitmap, h0, h1, h2, h3]

/-- Witness for C8 at b = 0x00FB. -/
theorem claim_C8_bitmap_parsing_witness :
    parse_fan_fault_bitmap 0x00FB =
      [ if Nat.testBit 0x00FB 0 then FanStatus.Normal else FanStatus.Fault
      , if Nat.testBit 0x00FB 1 then FanStatus.Normal else FanStatus.Fault
      , if Nat.testBit 0x00FB 2 then FanStatus.Normal else FanStatus.Fault
      , if Nat.testBit 0x00FB 3 then FanStatus.Normal else FanStatus.Fault ] :=
  (claim_C8_bitmap_parsing 0x00FB (by decide)).2.1

/-- C9: `encode_combined_temperature` truncates each offset-40-encoded
threshold to its low 8 bits (modulo 256) before packing start into the high
byte and full into the low byte — for all integer inputs, so out-of-range
inputs silently wrap rather than fail; in particular
`encode_combined_temperature 30 50 = 0x465A`. -/
theorem claim_C9_encode_truncates_mod256 (start_celsius full_celsius : Int) :
    encode_combined_temperature start_celsius full_celsius =
      ((start_celsius + 40) % 256).toNat * 256 + ((full_celsius + 40) % 256).toNat ∧
    encode_combined_temperature 30 50 = 0x465A := by
  constructor
  · have ha : u16AsU8 (celsius_to_register start_celsius) =
        ((start_celsius + 40) % 256).toNat := by
      simp only [u16AsU8, celsius_to_register, i16AsU16, wrapI16, TEMPERATURE_OFFSET]
      omega
    have hb : u16AsU8 (celsius_to_register full_celsius) =
        ((full_celsius + 40) % 256).toNat := by
      simp only [u16AsU8, celsius_to_register, i16AsU16, wrapI16, TEMPERATURE_OFFSET]
      omega
    have hb' : ((full_celsius + 40) % 256).toNat < 256 := by omega
    simp only [encode_combined_temperature, ha, hb]
    rw [shiftLeft_or_eq _ _ hb']
  · decide

/-- Explicit form of `Jpf4826Client.fan_status` in terms of the register table. -/
theorem fan_status_eq (s : MockState) :
    Jpf4826Client.fan_status s =
      [ { index := 1
          status := if s.regs 0x000E &&& 0x01 != 0 then FanStatus.Normal else FanStatus.Fault
          rpm := s.regs 0x0007 }
      , { index := 2
          status := if s.regs 0x000E &&& 0x02 != 0 then FanStatus.Normal else FanStatus.Fault
          rpm := s.regs 0x0008 }
      , { index := 3
          status := if s.regs 0x000E &&& 0x04 != 0 then FanStatus.Normal else FanStatus.Fault
          rpm := s.regs 0x0009 }
      , { index := 4
          status := if s.regs 0x000E &&& 0x08 != 0 then FanStatus.Normal else FanStatus.Fault
          rpm := s.regs 0x000A } ] := rfl

/-- Explicit form of `Jpf4826Client.status` in terms of the register table. -/
theorem status_eq (s : MockState) :
    Jpf4826Client.status s =
      { mode := if s.regs 0x0003 = 0xFFFF then OperatingMode.Temperature
                else OperatingMode.Manual
        eco_mode := s.regs 0x0005 == 1
        modbus_address := u16AsU8 (s.regs 0x0002)
        pwm_frequency :=
          (PwmFrequency.from_register_value (s.regs 0x000B)).getD PwmFrequency.Hz25000
        fan_count := u16AsU8 (s.regs 0x0006)
        temperature_current :=
          { value := register_to_celsius (s.regs 0x0000), unit := TemperatureUnit.Celsius }
        temperature_low_threshold :=
          { value := register_to_celsius (s.regs 0x000C), unit := TemperatureUnit.Celsius }
        temperature_high_threshold :=
          { value := register_to_celsius (s.regs 0x000D), unit := TemperatureUnit.Celsius }
        fans := Jpf4826Client.fan_status s } := rfl

/-- Explicit form of `Jpf4826Client.set_start_temperature`. -/
theorem set_start_temperature_eq (s : MockState) (low : Int) :
    Jpf4826Client.set_start_temperature s low =
      if ¬(-20 ≤ low ∧ low ≤ 120) then
        (Except.error (Jpf4826Error.invalidParameter
          ("Start temperature " ++ toString low ++ "°C out of range (-20 to 120)")), s)
      else if low ≥ register_to_celsius (s.regs 0x000D) then
        (Except.error (Jpf4826Error.invalidThresholds low
          (register_to_celsius (s.regs 0x000D))), s)
      else
        (Except.ok (), mockWrite s 0x000C (celsius_to_register low)) := rfl

/-- Explicit form of `Jpf4826Client.set_full_speed_temperature`. -/
theorem set_full_speed_temperature_eq (s : MockState) (high : Int) :
    Jpf4826Client.set_full_speed_temperature s high =
      if ¬(-20 ≤ high ∧ high ≤ 120) then
        (Except.error (Jpf4826Error.invalidParameter
          ("Full speed temperature " ++ toString high ++ "°C out of range (-20 to 120)")), s)
      else if high ≤ register_to_celsius (s.regs 0x000C) then
        (Except.error (Jpf4826Error.invalidThresholds
          (register_to_celsius (s.regs 0x000C)) high), s)
      else
        (Except.ok (), mockWrite s 0x000D (celsius_to_register high)) := rfl

/-- C2: on a device state with current-temperature register 71, fan-running
bitmap 0x000F, fault bitmap 0x000F and all four speed registers 1400,
`status` reports current temperature 31°C and exactly four fans, each
`Normal` at 1400 RPM. -/
theorem claim_C2_status_scenario (s : MockState)
    (h0 : s.regs 0x0000 = 71) (h1 : s.regs 0x0001 = 0x000F)
    (h14 : s.regs 0x000E = 0x000F)
    (h7 : s.regs 0x0007 = 1400) (h8 : s.regs 0x0008 = 1400)
    (h9 : s.regs 0x0009 = 1400) (h10 : s.regs 0x000A = 1400) :
    (Jpf4826Client.status s).temperature_current.value = 31 ∧
    (Jpf4826Client.status s).fans =
      [ { index := 1, status := FanStatus.Normal, rpm := 1400 }
      , { index := 2, status := FanStatus.Normal, rpm := 1400 }
      , { index := 3, status := FanStatus.Normal, rpm := 1400 }
      , { index := 4, status := FanStatus.Normal, rpm := 1400 } ] := by
  rw [status_eq]
  refine ⟨?_, ?_⟩
  · simp only [h0]
    decide
  · simp only [fan_status_eq, h14, h7, h8, h9, h10]
    decide

/-- Witness for C2 on the concrete `sampleState`. -/
theorem claim_C2_status_scenario_witness :
    (Jpf4826Client.status sampleState).temperature_current.value = 31 ∧
    (Jpf4826Client.status sampleState).fans =
      [ { index := 1, status := FanStatus.Normal, rpm := 1400 }
      , { index := 2, status := FanStatus.Normal, rpm := 1400 }
      , { index := 3, status := FanStatus.Normal, rpm := 1400 }
      , { index := 4, status := FanStatus.Normal, rpm := 1400 } ] :=
  claim_C2_status_scenario sampleState rfl rfl rfl rfl rfl rfl rfl

/-- C10: when the PWM frequency register (index 11 of the 15-register status
read) holds a value outside 0..=5, `status` does not fail: it reports the
default `Hz25000`. -/
theorem claim_C10_pwm_default (s : MockState) (v : Nat)
    (hv : s.regs 0x000B = v) (h5 : 5 < v) :
    (Jpf4826Client.status s).pwm_frequency = PwmFrequency.Hz25000 := by
  have hnone : PwmFrequency.from_register_value v = none := by
    obtain ⟨n, rfl⟩ : ∃ n, v = n + 6 := ⟨v - 6, by omega⟩
    rfl
  rw [status_eq]
  simp [hv, hnone]

/-- Witness for C10 on the concrete `sampleState` (PWM register holds 6). -/
theorem claim_C10_pwm_default_witness :
    (Jpf4826Client.status sampleState).pwm_frequency = PwmFrequency.Hz25000 :=
  claim_C10_pwm_default sampleState 6 rfl (by decide)

/-- C3: after any threshold-setting operation returns success, the stored low
(start) threshold is strictly less than the stored high (full-speed) threshold,
assuming the state satisfied that ordering before the operation. -/
theorem claim_C3_threshold_invariant (s s' : MockState) (low high : Int) :
    (thresholdsOrdered s →
      Jpf4826Client.set_temperature_threshold s low high = (Except.ok (), s') →
      thresholdsOrdered s') ∧
    (thresholdsOrdered s →
      Jpf4826Client.set_start_temperature s low = (Except.ok (), s') →
      thresholdsOrdered s') ∧
    (thresholdsOrdered s →
      Jpf4826Client.set_full_speed_temperature s high = (Except.ok (), s') →
      thresholdsOrdered s') := by
  refine ⟨?_, ?_, ?_⟩
  · intro _ h
    simp only [Jpf4826Client.set_temperature_threshold] at h
    split_ifs at h with h1 h2 h3 <;> simp at h
    subst h
    simp only [thresholdsOrdered, mockWrite, RegisterAddress.addr]
    norm_num
    rw [register_roundtrip low h2.1 h2.2, register_roundtrip high h3.1 h3.2]
    omega
  · intro _ h
    rw [set_start_temperature_eq] at h
    split_ifs at h with h1 h2 <;> simp at h
    subst h
    simp only [thresholdsOrdered, mockWrite, RegisterAddress.addr]
    norm_num
    rw [register_roundtrip low h1.1 h1.2]
    omega
  · intro _ h
    rw [set_full_speed_temperature_eq] at h
    split_ifs at h with h1 h2 <;> simp at h
    subst h
    simp only [thresholdsOrdered, mockWrite, RegisterAddress.addr]
    norm_num
    rw [register_roundtrip high h1.1 h1.2]
    omega

/-- Witness for C3: setting thresholds 30/50 on the concrete `sampleState`. -/
theorem claim_C3_threshold_invariant_witness :
    thresholdsOrdered (Jpf4826Client.set_temperature_threshold sampleState 30 50).2 :=
  (claim_C3_threshold_invariant sampleState
      (Jpf4826Client.set_temperature_threshold sampleState 30 50).2 30 50).1
    (by unfold thresholdsOrdered; decide) rfl

/-- C4: each high-level write operation fails client-side, with the device
registers untouched, exactly when its input is outside its documented range:
`set_addr` fails for 0 and 255 and succeeds for 1 and 254; `set_fan_speed`
fails for 101 and succeeds for 100; `set_fan_count` fails for counts above 4;
`set_temperature_threshold` fails for (40, 40) and for (-25, 50). -/
theorem claim_C4_validation_boundaries (s : MockState) :
    Jpf4826Client.set_addr s 0 = (Except.error (Jpf4826Error.invalidAddress 0), s) ∧
    Jpf4826Client.set_addr s 255 = (Except.error (Jpf4826Error.invalidAddress 255), s) ∧
    (Jpf4826Client.set_addr s 1).1 = Except.ok () ∧
    (Jpf4826Client.set_addr s 254).1 = Except.ok () ∧
    Jpf4826Client.set_fan_speed s 101 = (Except.error (Jpf4826Error.invalidSpeed 101), s) ∧
    (Jpf4826Client.set_fan_speed s 100).1 = Except.ok () ∧
    (∀ count : Nat, 4 < count →
      Jpf4826Client.set_fan_count s count =
        (Except.error (Jpf4826Error.invalidParameter
          ("Fan count " ++ toString count ++ " out of range (0-4)")), s)) ∧
    Jpf4826Client.set_temperature_threshold s 40 40 =
      (Except.error (Jpf4826Error.invalidThresholds 40 40), s) ∧
    Jpf4826Client.set_temperature_threshold s (-25) 50 =
      (Except.error (Jpf4826Error.invalidParameter
        ("Low temperature " ++ toString (-25 : Int) ++ "°C out of range (-20 to 120)")), s) := by
  refine ⟨?_, ?_, ?_, ?_, ?_, ?_, ?_, ?_, ?_⟩
  · norm_num [Jpf4826Client.set_addr]
  · norm_num [Jpf4826Client.set_addr]
  · norm_num [Jpf4826Client.set_addr]
  · norm_num [Jpf4826Client.set_addr]
  · norm_num [Jpf4826Client.set_fan_speed]
  · norm_num [Jpf4826Client.set_fan_speed]
  · intro count hc
    simp only [Jpf4826Client.set_fan_count]
    rw [if_pos hc]
  · norm_num [Jpf4826Client.set_temperature_threshold]
  · norm_num [Jpf4826Client.set_temperature_threshold]

/-- Witness for C4: the fan-count component at count = 5 on `sampleState`. -/
theorem claim_C4_validation_boundaries_witness :
    Jpf4826Client.set_fan_count sampleState 5 =
      (Except.error (Jpf4826Error.invalidParameter
        ("Fan count " ++ toString 5 ++ " out of range (0-4)")), sampleState) :=
  (claim_C4_validation_boundaries sampleState).2.2.2.2.2.2.1 5 (by decide)

/-- C5: when only one threshold changes, the client validates the ordering
against the currently stored value of the other threshold (read from the
device) and fails without writing when it is violated: `set_start_temperature`
fails when `low ≥` the stored high, `set_full_speed_temperature` fails when
`high ≤` the stored low, each leaving the state unchanged. -/
theorem claim_C5_single_threshold_read_check (s : MockState) (low high : Int) :
    (-20 ≤ low → low ≤ 120 → low ≥ register_to_celsius (s.regs 0x000D) →
      Jpf4826Client.set_start_temperature s low =
        (Except.error (Jpf4826Error.invalidThresholds low
          (register_to_celsius (s.regs 0x000D))), s)) ∧
    (-20 ≤ high → high ≤ 120 → high ≤ register_to_celsius (s.regs 0x000C) →
      Jpf4826Client.set_full_speed_temperature s high =
        (Except.error (Jpf4826Error.invalidThresholds
          (register_to_celsius (s.regs 0x000C)) high), s)) := by
  constructor
  · intro h1 h2 h3
    rw [set_start_temperature_eq, if_neg (not_not_intro ⟨h1, h2⟩), if_pos h3]
  · intro h1 h2 h3
    rw [set_full_speed_temperature_eq, if_neg (not_not_intro ⟨h1, h2⟩), if_pos h3]

/-- Witness for C5: `set_start_temperature 60` against `sampleState`, whose
stored high threshold is 50°C. -/
theorem claim_C5_single_threshold_read_check_witness :
    Jpf4826Client.set_start_temperature sampleState 60 =
      (Except.error (Jpf4826Error.invalidThresholds 60
        (register_to_celsius (sampleState.regs 0x000D))), sampleState) :=
  (claim_C5_single_threshold_read_check sampleState 60 0).1
    (by decide) (by decide) (by decide)

/-- C6: `set_addr` with an address in 1..=254 writes the address register
first and only then updates the locally cached bus address: if the transport
write fails the cache is unchanged, and after a successful `set_addr 42` the
cached address reads back 42 (and the device register holds 42). -/
theorem claim_C6_set_addr_cache_order (w : Nat → Nat → Except Jpf4826Error Unit)
    (cache addr : Nat) (e : Jpf4826Error) (s : MockState) :
    (1 ≤ addr → addr ≤ 254 → w 0x0002 addr = Except.error e →
      set_addr_modbus w cache addr = (Except.error e, cache)) ∧
    (1 ≤ addr → addr ≤ 254 → w 0x0002 addr = Except.ok () →
      set_addr_modbus w cache addr = (Except.ok (), addr)) ∧
    (Jpf4826Client.set_addr s 42).1 = Except.ok () ∧
    ((Jpf4826Client.set_addr s 42).2).slaveAddr = 42 ∧
    ((Jpf4826Client.set_addr s 42).2).regs 0x0002 = 42 := by
  refine ⟨?_, ?_, ?_, ?_, ?_⟩
  · intro h1 h2 hw
    simp only [set_addr_modbus, RegisterAddress.addr]
    rw [if_neg (not_not_intro ⟨h1, h2⟩), hw]
  · intro h1 h2 hw
    simp only [set_addr_modbus, RegisterAddress.addr]
    rw [if_neg (not_not_intro ⟨h1, h2⟩), hw]
  · norm_num [Jpf4826Client.set_addr]
  · norm_num [Jpf4826Client.set_addr]
  · norm_num [Jpf4826Client.set_addr, mockWrite, RegisterAddress.addr]

/-- Witness for C6: a transport write that always fails leaves the cached
address at its previous value 1. -/
theorem claim_C6_set_addr_cache_order_witness :
    set_addr_modbus (fun _ _ => Except.error (Jpf4826Error.modbus "link down")) 1 42 =
      (Except.error (Jpf4826Error.modbus "link down"), 1) :=
  (claim_C6_set_addr_cache_order
      (fun _ _ => Except.error (Jpf4826Error.modbus "link down"))
      1 42 (Jpf4826Error.modbus "link down") sampleState).1
    (by decide) (by decide) rfl
